import Mathlib

/-!
Verification development for the MQTT source / MQTT reaction repository.

The development shallowly embeds the core translation engine of the
repository:

* `result_to_payload` from drasi-reaction-mqtt/src/publisher.rs — the
  outbound renderer turning a query-result batch into a list of
  (topic, payload) messages, with split/batch mode selection;
* `payload_to_source_change` from drasi-source-mqtt/src/mapper.rs — the
  inbound mapper turning a parsed payload into a graph change event;
* `payload_to_change` from src/main.rs — the standalone reactivator
  variant of the inbound mapper.

External collaborators are embedded as follows.  JSON documents
(serde_json::Value) are the inductive type `Json`; byte payloads that the
Rust code produces with serde_json::to_vec are represented by the JSON
text produced by `Json.encode` (serde numbers are modelled as integers;
the claims never exercise float formatting, and control-character string
escapes are not modelled since no theorem observes them).  Parsing
(serde_json::from_slice) is represented by an `Except String Json`
argument standing for the parse outcome on the raw bytes.  The random
generator uuid::Uuid::new_v4().to_string() is represented by an explicit
`String` argument: the freshly generated identifier.  The handlebars
template engine is modelled after the registry the repository actually
builds (reaction.rs line 55: Handlebars::new(), the default
configuration, in which strict mode is off, so a placeholder whose key is
absent from the context renders as the empty string, and only a
syntactically invalid template — an unclosed placeholder — is an error).
-/

/-- Embedding of serde_json::Value.  Numbers are modelled as integers:
no claim depends on float formatting.  Objects and their iteration order
are modelled as association lists in document order. -/
inductive Json where
  | null : Json
  | bool (b : Bool) : Json
  | num (n : Int) : Json
  | str (s : String) : Json
  | arr (items : List Json) : Json
  | obj (fields : List (String × Json)) : Json

/-- First binding of a key in an association list, as serde_json Map get
(maps produced by the parser have unique keys, so first binding is the
binding). -/
def lookupField : List (String × Json) → String → Option Json
  | [], _ => none
  | (k, v) :: rest, key => if k = key then some v else lookupField rest key

/-- Embedding of serde_json::Value::get: field lookup on an object,
`none` on every other document shape. -/
def Json.get : Json → String → Option Json
  | .obj fields, key => lookupField fields key
  | _, _ => none

/-- Embedding of serde_json::Map::insert: replace the first binding of
the key if present, otherwise append the new binding. -/
def setKey : List (String × Json) → String → Json → List (String × Json)
  | [], key, v => [(key, v)]
  | (k0, v0) :: rest, key, v =>
    if k0 = key then (key, v) :: rest else (k0, v0) :: setKey rest key v

/-- True exactly when the document is a JSON object. -/
def isObjB : Json → Bool
  | .obj _ => true
  | _ => false

/-- The opening curly brace character. -/
def hbOpen : Char := Char.ofNat 123

/-- The closing curly brace character. -/
def hbClose : Char := Char.ofNat 125

/-- Embedding of str::contains applied to the two-character placeholder
marker (two opening curly braces), as used at publisher.rs line 41. -/
def hbContains : List Char → Bool
  | [] => false
  | [_] => false
  | c :: c2 :: rest => (c = hbOpen && c2 = hbOpen) || hbContains (c2 :: rest)

/-- Minimal JSON string quoting as serde_json emits it (quote and
backslash escapes; control-character escapes unmodelled, unobserved by
every theorem below). -/
def quoteJson (s : String) : String :=
  "\"" ++ String.join (s.data.map fun c =>
    if c = Char.ofNat 34 then "\\\""
    else if c = Char.ofNat 92 then "\\\\"
    else String.mk [c]) ++ "\""

mutual

/-- Embedding of serde_json::to_vec / to_string: the JSON text of a
document (object members kept in the represented order). -/
def Json.encode : Json → String
  | .null => "null"
  | .bool b => if b then "true" else "false"
  | .num n => toString n
  | .str s => quoteJson s
  | .arr items => "[" ++ encodeItems items ++ "]"
  | .obj fields => "\x7b" ++ encodeMembers fields ++ "\x7d"

/-- Comma-separated encoding of array items. -/
def encodeItems : List Json → String
  | [] => ""
  | [x] => Json.encode x
  | x :: y :: rest => Json.encode x ++ "," ++ encodeItems (y :: rest)

/-- Comma-separated encoding of object members. -/
def encodeMembers : List (String × Json) → String
  | [] => ""
  | [(k, v)] => quoteJson k ++ ":" ++ Json.encode v
  | (k, v) :: m :: rest =>
    quoteJson k ++ ":" ++ Json.encode v ++ "," ++ encodeMembers (m :: rest)

end

/-- How a context value is spliced into rendered template output (the
claims only exercise string and integer values). -/
def renderValue : Json → String
  | .str s => s
  | .num n => toString n
  | .bool b => if b then "true" else "false"
  | .null => ""
  | .arr items => Json.encode (.arr items)
  | .obj fields => Json.encode (.obj fields)

/-- Rendering of one resolved placeholder: under the default registry
configuration of reaction.rs line 55 strict mode is off, so a key absent
from the context renders as the empty string. -/
def renderVar (ctx : Json) (key : String) : String :=
  match Json.get ctx key with
  | some v => renderValue v
  | none => ""

/-- Scanner state for the template engine: outside any placeholder,
one opening brace seen, inside a placeholder key, or one closing brace
seen while inside a key. -/
inductive RState where
  | outside : RState
  | seenOpen : RState
  | inside (acc : List Char) : RState
  | seenClose (acc : List Char) : RState

/-- The error a syntactically invalid template produces. -/
def unclosedMsg : String := "unclosed placeholder in template"

/-- Character-level template scanner: substitutes each complete
placeholder via `renderVar` and fails only on a template that ends while
a placeholder is still open. -/
def renderSM (ctx : Json) (st : RState) : List Char → Except String String
  | [] =>
    match st with
    | .outside => .ok ""
    | .seenOpen => .ok (String.mk [hbOpen])
    | .inside _ => .error unclosedMsg
    | .seenClose _ => .error unclosedMsg
  | c :: rest =>
    match st with
    | .outside =>
      if c = hbOpen then renderSM ctx .seenOpen rest
      else (fun t => String.mk [c] ++ t) <$> renderSM ctx .outside rest
    | .seenOpen =>
      if c = hbOpen then renderSM ctx (.inside []) rest
      else (fun t => String.mk [hbOpen, c] ++ t) <$> renderSM ctx .outside rest
    | .inside acc =>
      if c = hbClose then renderSM ctx (.seenClose acc) rest
      else renderSM ctx (.inside (acc ++ [c])) rest
    | .seenClose acc =>
      if c = hbClose then
        (fun t => renderVar ctx (String.mk acc) ++ t) <$> renderSM ctx .outside rest
      else renderSM ctx (.inside (acc ++ [hbClose, c])) rest

/-- Embedding of Handlebars::render_template under the default registry
built at reaction.rs line 55. -/
def renderTemplate (tmpl : String) (ctx : Json) : Except String String :=
  renderSM ctx .outside tmpl.data

/-- Embedding of the context preparation of publisher.rs lines 48 to 53:
clone the item and, when it is an object, insert query_id, sequence and
op; any other document shape is left untouched. -/
def buildContext (query_id : String) (sequence : Nat) (op : String) (item : Json) : Json :=
  match item with
  | .obj fields =>
    .obj (setKey (setKey (setKey fields "query_id" (.str query_id))
      "sequence" (.num sequence)) "op" (.str op))
  | other => other

/-- Embedding of the process_list closure of publisher.rs lines 45 to 70:
for each item build the context, render the topic, render the payload
(payload template if supplied, otherwise the JSON encoding of the
context), and push the message; the first failure aborts. -/
def processList (query_id : String) (sequence : Nat) (topic_template : String)
    (payload_template : Option String) (op : String)
    (messages : List (String × String)) : List Json → Except String (List (String × String))
  | [] => .ok messages
  | item :: rest =>
    let context := buildContext query_id sequence op item
    match renderTemplate topic_template context with
    | .error e => .error e
    | .ok topic =>
      let payloadE : Except String String :=
        match payload_template with
        | some tmpl => renderTemplate tmpl context
        | none => .ok (Json.encode context)
      match payloadE with
      | .error e => .error e
      | .ok payload =>
        processList query_id sequence topic_template payload_template op
          (messages ++ [(topic, payload)]) rest

/-- The batch-mode payload document of publisher.rs lines 77 to 83. -/
def batchValue (query_id : String) (sequence : Nat)
    (added updated removed : List Json) : Json :=
  .obj [("query_id", .str query_id), ("sequence", .num sequence),
        ("added", .arr added), ("updated", .arr updated), ("removed", .arr removed)]

/-- Embedding of result_to_payload (publisher.rs lines 29 to 89).
Payloads are represented by the JSON text or rendered text whose UTF-8
bytes the Rust function returns. -/
def result_to_payload (query_id : String) (sequence : Nat)
    (added updated removed : List Json)
    (topic_template : String) (payload_template : Option String) :
    Except String (List (String × String)) :=
  let split_mode := hbContains topic_template.data || payload_template.isSome
  if split_mode then
    match processList query_id sequence topic_template payload_template "insert" [] added with
    | .error e => .error e
    | .ok m1 =>
      match processList query_id sequence topic_template payload_template "update" m1 updated with
      | .error e => .error e
      | .ok m2 =>
        match processList query_id sequence topic_template payload_template "delete" m2 removed with
        | .error e => .error e
        | .ok m3 => .ok m3
  else
    .ok [(topic_template, Json.encode (batchValue query_id sequence added updated removed))]

/-- The per-connection operation mode the mapper matches on.
Modelled from the spec: mapper.rs imports OperationMode from
crate::config, but config.rs does not declare it; the spec (section 4.2,
variant a) describes it as the static Insert-or-Update selector. -/
inductive OperationMode where
  | Insert : OperationMode
  | Update : OperationMode

/-- Embedding of drasi_core ElementReference::new(node_label, entity_id)
as constructed at mapper.rs line 61. -/
structure ElementReference where
  source_id : String
  element_id : String

/-- Embedding of the drasi_core ElementMetadata the mapper builds. -/
structure ElementMetadata where
  reference : ElementReference
  labels : List String
  effective_from : Nat

/-- Embedding of drasi_core Element (only the Node constructor is
built by this repository). -/
inductive Element where
  | Node (metadata : ElementMetadata) (properties : List (String × Json)) : Element

/-- Embedding of drasi_core SourceChange (the two constructors the
mapper produces). -/
inductive SourceChange where
  | Insert (element : Element) : SourceChange
  | Update (element : Element) : SourceChange

/-- The mode match of mapper.rs lines 71 to 74. -/
def opWrap (mode : OperationMode) (element : Element) : SourceChange :=
  match mode with
  | .Insert => SourceChange.Insert element
  | .Update => SourceChange.Update element

/-- The top-level fields of a parsed document: the property-map loop of
mapper.rs lines 53 to 58 (an object contributes its members in order,
every other shape contributes nothing). -/
def topFields : Json → List (String × Json)
  | .obj fields => fields
  | _ => []

/-- The identity resolution of mapper.rs lines 43 to 50: the configured
field verbatim when a string, its decimal form when a number, otherwise
the freshly generated identifier (the uuid::Uuid::new_v4().to_string()
result, passed here as `freshUuid`). -/
def resolveEntityId (json : Json) (id_field : String) (freshUuid : String) : String :=
  match Json.get json id_field with
  | some (.str s) => s
  | some (.num n) => toString n
  | _ => freshUuid

/-- Embedding of payload_to_source_change (mapper.rs lines 34 to 77).
The serde_json::from_slice outcome on the raw bytes is the `parsed`
argument; a parse failure propagates as the written question-mark
operator does. -/
def payload_to_source_change (parsed : Except String Json)
    (id_field node_label : String) (freshUuid : String) (mode : OperationMode) :
    Except String SourceChange :=
  match parsed with
  | .error e => .error e
  | .ok json =>
    let entity_id := resolveEntityId json id_field freshUuid
    let properties := topFields json
    let metadata : ElementMetadata :=
      { reference := { source_id := node_label, element_id := entity_id }
        labels := [node_label]
        effective_from := 0 }
    .ok (opWrap mode (Element.Node metadata properties))

/-- The entity identifier carried by a produced change event. -/
def changeEntityId : SourceChange → String
  | .Insert (.Node metadata _) => metadata.reference.element_id
  | .Update (.Node metadata _) => metadata.reference.element_id

/-- Embedding of the ChangeOp argument of SourceChange::new in
src/main.rs (only Create is used). -/
inductive ChangeOp where
  | Create : ChangeOp

/-- Embedding of drasi_source_sdk SourceElement::Node as built at
main.rs lines 164 to 168. -/
structure SourceElementNode where
  id : String
  labels : List String
  properties : List (String × Json)

/-- Embedding of the SourceChange::new(op, node, ts, ts, 0, None) value
of main.rs line 170. -/
structure SdkSourceChange where
  op : ChangeOp
  node : SourceElementNode
  ts_start : Nat
  ts_end : Nat
  lsn : Nat

/-- Embedding of payload_to_change (src/main.rs lines 141 to 171).  The
identity step at lines 150 to 155 uses as_str, so only a string-valued
id field is taken verbatim; every other outcome (missing field, numeric,
boolean, null, array, object, non-object document) falls back to the
freshly generated identifier. -/
def payload_to_change (parsed : Except String Json) (ts : Nat)
    (freshUuid : String) : Option SdkSourceChange :=
  match parsed with
  | .error _ => none
  | .ok json =>
    let id :=
      match Json.get json "id" with
      | some (.str s) => s
      | _ => freshUuid
    let labels := ["MqttMessage"]
    let properties := topFields json
    some { op := ChangeOp.Create
           node := { id := id, labels := labels, properties := properties }
           ts_start := ts, ts_end := ts, lsn := 0 }

/-- Modelled from the spec: the First-Seen Tracker observe operation
(section 4.5) — record and report whether the identifier is new. -/
def observe (seen : List String) (id : String) : Bool × List String :=
  if id ∈ seen then (false, seen) else (true, id :: seen)

/-- Modelled from the spec: operation-mode policy variant (b) of section
4.2 — first observation of an identifier yields Insert, every later one
Update.  This is the policy the caller in source.rs lines 148 to 154
supplies state for (it passes the seen_ids set to the mapper). -/
def firstSeenMode (seen : List String) (id : String) : OperationMode × List String :=
  let r := observe seen id
  (if r.1 then OperationMode.Insert else OperationMode.Update, r.2)

/-- Hexadecimal digit in the lowercase alphabet the uuid crate renders. -/
def isHexDigit (c : Char) : Bool :=
  c.isDigit || (Char.ofNat 97 ≤ c && c ≤ Char.ofNat 102)

/-- Modelled from the spec: the standard 36-character hyphenated
lowercase-hex form in which uuid::Uuid::new_v4().to_string() renders the
freshly generated identifier (hyphens at offsets 8, 13, 18 and 23). -/
def isUuidFormat (s : String) : Bool :=
  s.length = 36 &&
    s.data.enum.all fun p =>
      if p.1 = 8 || p.1 = 13 || p.1 = 18 || p.1 = 23 then p.2 = '-'
      else isHexDigit p.2

/-- A concrete well-formed generated identifier used by witnesses. -/
def uuidEx : String := "8f14e45f-ceea-4672-9674-0f735c1b02ab"

/-- Boolean success test for Except values. -/
def isOkE : Except ε α → Bool
  | .ok _ => true
  | .error _ => false

/-- Modelled from the spec: effectful map over a list, first failure
aborting (section 4.4 split mode, one message per entity in order). -/
def mapExcept (f : α → Except ε β) : List α → Except ε (List β)
  | [] => .ok []
  | x :: xs =>
    match f x with
    | .error e => .error e
    | .ok y =>
      match mapExcept f xs with
      | .error e => .error e
      | .ok ys => .ok (y :: ys)

/-- Modelled from the spec: the split-mode treatment of one entity
(section 4.4) — build the render context from the entity, render the
topic template against it, and take as payload either the rendered
payload template or the JSON encoding of the full context. -/
def specRenderEntity (query_id : String) (sequence : Nat)
    (topic_template : String) (payload_template : Option String)
    (op : String) (item : Json) : Except String (String × String) :=
  let context := buildContext query_id sequence op item
  match renderTemplate topic_template context with
  | .error e => .error e
  | .ok topic =>
    match payload_template with
    | some tmpl =>
      match renderTemplate tmpl context with
      | .error e => .error e
      | .ok payload => .ok (topic, payload)
    | none => .ok (topic, Json.encode context)

/-- Modelled from the spec: split mode renders the three lists in fixed
order — added as insert, updated as update, removed as delete — each
entity yielding exactly one message, a failure aborting the whole call
(section 4.4). -/
def specSplitRender (query_id : String) (sequence : Nat)
    (added updated removed : List Json)
    (topic_template : String) (payload_template : Option String) :
    Except String (List (String × String)) :=
  match mapExcept (specRenderEntity query_id sequence topic_template payload_template "insert") added with
  | .error e => .error e
  | .ok la =>
    match mapExcept (specRenderEntity query_id sequence topic_template payload_template "update") updated with
    | .error e => .error e
    | .ok lu =>
      match mapExcept (specRenderEntity query_id sequence topic_template payload_template "delete") removed with
      | .error e => .error e
      | .ok lr => .ok (la ++ lu ++ lr)

theorem fmapOk (f : α → β) (a : α) : (f <$> (Except.ok a : Except ε α)) = Except.ok (f a) := rfl

theorem fmapErr (f : α → β) (e : ε) : (f <$> (Except.error e : Except ε α)) = Except.error e := rfl

theorem isOkE_fmap (f : α → β) (e : Except ε α) : isOkE (f <$> e) = isOkE e := by
  cases e <;> rfl

theorem get_nonObj (j : Json) (k : String) (h : isObjB j = false) : Json.get j k = none := by
  cases j <;> simp_all [isObjB, Json.get]

theorem lookupField_setKey (m : List (String × Json)) (k : String) (v : Json) (k' : String) :
    lookupField (setKey m k v) k' = if k' = k then some v else lookupField m k' := by
  induction m with
  | nil =>
    by_cases h : k' = k
    · simp [setKey, lookupField, h]
    · have h2 : ¬(k = k') := fun hh => h hh.symm
      simp [setKey, lookupField, h, h2]
  | cons p rest ih =>
    obtain ⟨k0, v0⟩ := p
    by_cases h0 : k0 = k
    · subst h0
      by_cases h : k' = k0
      · simp [setKey, lookupField, h]
      · have h2 : ¬(k0 = k') := fun hh => h hh.symm
        simp [setKey, lookupField, h, h2]
    · by_cases h : k' = k
      · subst h
        have h2 : ¬(k0 = k') := h0
        simp [setKey, lookupField, h0, h2, ih]
      · by_cases h3 : k0 = k'
        · simp [setKey, lookupField, h0, h3, h]
        · simp [setKey, lookupField, h0, h3, h, ih]

theorem strAppendEmpty (s : String) : s ++ "" = s := by
  apply String.ext
  simp

theorem renderSM_isOk_ctx (l : List Char) : ∀ (st : RState) (ctx ctx' : Json),
    isOkE (renderSM ctx st l) = isOkE (renderSM ctx' st l) := by
  induction l with
  | nil => intro st ctx ctx'; cases st <;> rfl
  | cons c rest ih =>
    intro st ctx ctx'
    cases st with
    | outside =>
      by_cases h : c = hbOpen
      · simp only [renderSM, if_pos h]
        exact ih .seenOpen ctx ctx'
      · simp only [renderSM, if_neg h, isOkE_fmap]
        exact ih .outside ctx ctx'
    | seenOpen =>
      by_cases h : c = hbOpen
      · simp only [renderSM, if_pos h]
        exact ih (.inside []) ctx ctx'
      · simp only [renderSM, if_neg h, isOkE_fmap]
        exact ih .outside ctx ctx'
    | inside acc =>
      by_cases h : c = hbClose
      · simp only [renderSM, if_pos h]
        exact ih (.seenClose acc) ctx ctx'
      · simp only [renderSM, if_neg h]
        exact ih (.inside (acc ++ [c])) ctx ctx'
    | seenClose acc =>
      by_cases h : c = hbClose
      · simp only [renderSM, if_pos h, isOkE_fmap]
        exact ih .outside ctx ctx'
      · simp only [renderSM, if_neg h]
        exact ih (.inside (acc ++ [hbClose, c])) ctx ctx'

theorem renderSM_inside_close (ctx : Json) :
    ∀ (kcs acc : List Char), (∀ c ∈ kcs, c ≠ hbClose) →
    renderSM ctx (.inside acc) (kcs ++ [hbClose, hbClose]) =
      .ok (renderVar ctx (String.mk (acc ++ kcs))) := by
  intro kcs
  induction kcs with
  | nil =>
    intro acc _
    have h1 : renderSM ctx (.inside acc) ([] ++ [hbClose, hbClose]) =
        (fun t => renderVar ctx (String.mk acc) ++ t) <$> renderSM ctx .outside [] := by
      simp [renderSM]
    rw [h1]
    have h2 : renderSM ctx RState.outside ([] : List Char) = Except.ok "" := rfl
    rw [h2, fmapOk, strAppendEmpty, List.append_nil]
  | cons c kcs' ih =>
    intro acc hno
    have hc : c ≠ hbClose := hno c (by simp)
    have step : renderSM ctx (.inside acc) ((c :: kcs') ++ [hbClose, hbClose]) =
        renderSM ctx (.inside (acc ++ [c])) (kcs' ++ [hbClose, hbClose]) := by
      simp [renderSM, hc]
    rw [step, ih (acc ++ [c]) (fun d hd => hno d (List.mem_cons_of_mem _ hd))]
    simp

theorem processList_cons (q : String) (s : Nat) (tt : String) (pt : Option String)
    (op : String) (acc : List (String × String)) (item : Json) (rest : List Json) :
    processList q s tt pt op acc (item :: rest) =
      match specRenderEntity q s tt pt op item with
      | .error e => .error e
      | .ok msg => processList q s tt pt op (acc ++ [msg]) rest := by
  simp only [processList, specRenderEntity]
  cases htop : renderTemplate tt (buildContext q s op item) with
  | error e => rfl
  | ok topic =>
    cases pt with
    | none => rfl
    | some tmpl =>
      cases hpay : renderTemplate tmpl (buildContext q s op item) <;> simp [hpay]

theorem processList_eq (q : String) (s : Nat) (tt : String) (pt : Option String) (op : String) :
    ∀ (l : List Json) (acc : List (String × String)),
    processList q s tt pt op acc l =
      Except.map (fun ms => acc ++ ms) (mapExcept (specRenderEntity q s tt pt op) l) := by
  intro l
  induction l with
  | nil => intro acc; simp [processList, mapExcept, Except.map]
  | cons item rest ih =>
    intro acc
    rw [processList_cons]
    cases hse : specRenderEntity q s tt pt op item with
    | error e => simp [mapExcept, hse, Except.map]
    | ok msg =>
      simp only [mapExcept, hse]
      rw [ih (acc ++ [msg])]
      cases hrest : mapExcept (specRenderEntity q s tt pt op) rest with
      | error e => simp [Except.map]
      | ok ys => simp [Except.map]

theorem result_split (q : String) (s : Nat) (a u r : List Json) (tt : String)
    (pt : Option String) (h : (hbContains tt.data || pt.isSome) = true) :
    result_to_payload q s a u r tt pt = specSplitRender q s a u r tt pt := by
  simp only [result_to_payload, specSplitRender, h, if_true]
  simp only [processList_eq]
  cases ha : mapExcept (specRenderEntity q s tt pt "insert") a with
  | error e => simp [Except.map]
  | ok la =>
    simp only [Except.map, List.nil_append]
    cases hu : mapExcept (specRenderEntity q s tt pt "update") u with
    | error e => simp [Except.map]
    | ok lu =>
      simp only [Except.map]
      cases hr : mapExcept (specRenderEntity q s tt pt "delete") r with
      | error e => simp [Except.map]
      | ok lr => simp [Except.map, List.append_assoc]

theorem result_batch (q : String) (s : Nat) (a u r : List Json) (tt : String)
    (pt : Option String) (h : (hbContains tt.data || pt.isSome) = false) :
    result_to_payload q s a u r tt pt =
      .ok [(tt, Json.encode (batchValue q s a u r))] := by
  simp [result_to_payload, h]

theorem mapExcept_error_of_mem (f : α → Except ε β) :
    ∀ (l : List α) (x : α), x ∈ l → (∃ e, f x = .error e) →
    ∃ e', mapExcept f l = .error e' := by
  intro l
  induction l with
  | nil => intro x hx; cases hx
  | cons y ys ih =>
    intro x hx he
    obtain ⟨e, hfe⟩ := he
    rcases List.mem_cons.mp hx with h1 | h2
    · subst h1
      exact ⟨e, by simp [mapExcept, hfe]⟩
    · cases hy : f y with
      | error e2 => exact ⟨e2, by simp [mapExcept, hy]⟩
      | ok v =>
        obtain ⟨e', h'⟩ := ih x h2 ⟨e, hfe⟩
        exact ⟨e', by simp [mapExcept, hy, h']⟩

theorem mapExcept_ok_all (f : α → Except ε β) :
    ∀ (l : List α) (ys : List β), mapExcept f l = .ok ys →
    ∀ x ∈ l, ∃ y, f x = .ok y := by
  intro l
  induction l with
  | nil => intro ys _ x hx; cases hx
  | cons z zs ih =>
    intro ys hok x hx
    cases hz : f z with
    | error e => rw [mapExcept, hz] at hok; cases hok
    | ok v =>
      rw [mapExcept, hz] at hok
      cases hzs : mapExcept f zs with
      | error e => rw [hzs] at hok; cases hok
      | ok vs =>
        rw [hzs] at hok
        rcases List.mem_cons.mp hx with h1 | h2
        · exact ⟨v, h1 ▸ hz⟩
        · exact ih vs hzs x h2

theorem buildContext_get (q : String) (s : Nat) (op : String)
    (fields : List (String × Json)) (k : String) :
    Json.get (buildContext q s op (.obj fields)) k =
      if k = "op" then some (.str op)
      else if k = "sequence" then some (.num s)
      else if k = "query_id" then some (.str q)
      else lookupField fields k := by
  simp only [buildContext, Json.get, lookupField_setKey]

theorem toDigitsCore_length_pos (b n f : Nat) :
    1 ≤ (Nat.toDigitsCore b (f + 1) n []).length := by
  simp only [Nat.toDigitsCore]
  split
  · simp
  · rw [Nat.toDigitsCore_lens_eq]
    omega

theorem natRepr_ne_empty (n : Nat) : Nat.repr n ≠ "" := by
  intro h
  have h1 : 1 ≤ (Nat.toDigits 10 n).length := toDigitsCore_length_pos 10 n n
  have h2 : (Nat.repr n).data = Nat.toDigits 10 n := rfl
  rw [h] at h2
  have h3 : (Nat.toDigits 10 n).length = 0 := by rw [← h2]; rfl
  omega

theorem intToString_ne_empty (n : Int) : toString n ≠ "" := by
  cases n with
  | ofNat m => exact natRepr_ne_empty m
  | negSucc m =>
    intro h
    have h2 : (("-" : String) ++ Nat.repr (m + 1)).data = String.data "" := by
      rw [← h]; rfl
    simp [String.data_append] at h2

theorem uuidFormat_ne_empty (u : String) (h : isUuidFormat u = true) : u ≠ "" := by
  intro hc
  subst hc
  exact absurd h (by decide)

/-- C1: for every call to result_to_payload, split mode is selected if
and only if the topic template contains the placeholder marker or a
payload template is supplied, and otherwise batch mode is selected; the
branch condition depends only on the two templates, so the mode is
decided once per call and never per entity. -/
theorem claim1_mode_selection (q : String) (s : Nat) (a u r : List Json)
    (tt : String) (pt : Option String) :
    result_to_payload q s a u r tt pt =
      if (hbContains tt.data || pt.isSome) = true
      then specSplitRender q s a u r tt pt
      else .ok [(tt, Json.encode (batchValue q s a u r))] := by
  by_cases h : (hbContains tt.data || pt.isSome) = true
  · rw [if_pos h]
    exact result_split q s a u r tt pt h
  · rw [if_neg h]
    have hf : (hbContains tt.data || pt.isSome) = false := by
      cases hx : (hbContains tt.data || pt.isSome)
      · rfl
      · exact absurd hx h
    exact result_batch q s a u r tt pt hf

/-- C2: in split mode result_to_payload renders the added list with op
insert, then the updated list with op update, then the removed list with
op delete, one message per entity in original order (the equality with
specSplitRender); an all-empty batch yields the empty message list; and
for object snapshots the render context holds exactly the entity fields
plus the injected query_id, sequence and op keys. -/
theorem claim2_split_mode (q : String) (s : Nat) (a u r : List Json) (tt : String)
    (pt : Option String) (h : (hbContains tt.data || pt.isSome) = true) :
    result_to_payload q s a u r tt pt = specSplitRender q s a u r tt pt
    ∧ (a = [] → u = [] → r = [] → result_to_payload q s a u r tt pt = .ok [])
    ∧ (∀ (op : String) (fields : List (String × Json)) (k : String),
        Json.get (buildContext q s op (.obj fields)) k =
          if k = "op" then some (.str op)
          else if k = "sequence" then some (.num s)
          else if k = "query_id" then some (.str q)
          else lookupField fields k) := by
  refine ⟨result_split q s a u r tt pt h, ?_, ?_⟩
  · intro ha hu hr
    subst ha; subst hu; subst hr
    rw [result_split q s [] [] [] tt pt h]
    rfl
  · intro op fields k
    exact buildContext_get q s op fields k

/-- Witness for C2 at a concrete split-mode input: one added entity and
a dynamic topic template. -/
theorem claim2_split_mode_witness :
    (hbContains ("devices/\x7b\x7bdevice\x7d\x7d/data").data
      || (none : Option String).isSome) = true
    ∧ (result_to_payload "q1" 1 [Json.obj [("device", Json.str "d1")]] [] []
          "devices/\x7b\x7bdevice\x7d\x7d/data" none =
        specSplitRender "q1" 1 [Json.obj [("device", Json.str "d1")]] [] []
          "devices/\x7b\x7bdevice\x7d\x7d/data" none
      ∧ ([Json.obj [("device", Json.str "d1")]] = ([] : List Json) → ([] : List Json) = [] →
          ([] : List Json) = [] →
          result_to_payload "q1" 1 [Json.obj [("device", Json.str "d1")]] [] []
            "devices/\x7b\x7bdevice\x7d\x7d/data" none = .ok [])
      ∧ (∀ (op : String) (fields : List (String × Json)) (k : String),
          Json.get (buildContext "q1" 1 op (.obj fields)) k =
            if k = "op" then some (.str op)
            else if k = "sequence" then some (.num 1)
            else if k = "query_id" then some (.str "q1")
            else lookupField fields k)) :=
  ⟨rfl, claim2_split_mode "q1" 1 [Json.obj [("device", Json.str "d1")]] [] []
    "devices/\x7b\x7bdevice\x7d\x7d/data" none rfl⟩

/-- C3: in batch mode (static topic, no payload template)
result_to_payload returns exactly one message, its topic the template
unchanged and its payload the encoding of the batch document, from which
field lookup recovers query_id, sequence and the three lists unchanged. -/
theorem claim3_batch_mode (q : String) (s : Nat) (a u r : List Json) (tt : String)
    (h : hbContains tt.data = false) :
    result_to_payload q s a u r tt none =
        .ok [(tt, Json.encode (batchValue q s a u r))]
    ∧ Json.get (batchValue q s a u r) "query_id" = some (.str q)
    ∧ Json.get (batchValue q s a u r) "sequence" = some (.num s)
    ∧ Json.get (batchValue q s a u r) "added" = some (.arr a)
    ∧ Json.get (batchValue q s a u r) "updated" = some (.arr u)
    ∧ Json.get (batchValue q s a u r) "removed" = some (.arr r) := by
  refine ⟨result_batch q s a u r tt none (by simp [h]), ?_, ?_, ?_, ?_, ?_⟩ <;> rfl

/-- Witness for C3 at the concrete input of the batch-mode unit test. -/
theorem claim3_batch_mode_witness :
    hbContains ("static/topic").data = false
    ∧ (result_to_payload "q1" 1 [Json.obj [("name", Json.str "sensor-1")]] [] []
          "static/topic" none =
        .ok [("static/topic",
          Json.encode (batchValue "q1" 1 [Json.obj [("name", Json.str "sensor-1")]] [] []))]
      ∧ Json.get (batchValue "q1" 1 [Json.obj [("name", Json.str "sensor-1")]] [] [])
          "query_id" = some (.str "q1")
      ∧ Json.get (batchValue "q1" 1 [Json.obj [("name", Json.str "sensor-1")]] [] [])
          "sequence" = some (.num 1)
      ∧ Json.get (batchValue "q1" 1 [Json.obj [("name", Json.str "sensor-1")]] [] [])
          "added" = some (.arr [Json.obj [("name", Json.str "sensor-1")]])
      ∧ Json.get (batchValue "q1" 1 [Json.obj [("name", Json.str "sensor-1")]] [] [])
          "updated" = some (.arr [])
      ∧ Json.get (batchValue "q1" 1 [Json.obj [("name", Json.str "sensor-1")]] [] [])
          "removed" = some (.arr [])) :=
  ⟨rfl, claim3_batch_mode "q1" 1 [Json.obj [("name", Json.str "sensor-1")]] [] []
    "static/topic" rfl⟩

/-- C6: in split mode, if rendering the topic or payload for any single
entity of the batch fails, the whole result_to_payload call returns an
error and no message list at all — in particular no messages for
entities processed earlier in the same batch. -/
theorem claim6_render_failure_aborts (q : String) (s : Nat) (a u r : List Json)
    (tt : String) (pt : Option String) (h : (hbContains tt.data || pt.isSome) = true)
    (item : Json) (op : String)
    (hmem : (item ∈ a ∧ op = "insert") ∨ (item ∈ u ∧ op = "update")
      ∨ (item ∈ r ∧ op = "delete"))
    (hfail : ∃ e, specRenderEntity q s tt pt op item = .error e) :
    ∃ e', result_to_payload q s a u r tt pt = .error e' := by
  rw [result_split q s a u r tt pt h]
  rcases hmem with ⟨hin, hop⟩ | ⟨hin, hop⟩ | ⟨hin, hop⟩ <;> subst hop
  · obtain ⟨e1, h1⟩ := mapExcept_error_of_mem _ a item hin hfail
    exact ⟨e1, by simp [specSplitRender, h1]⟩
  · cases ha : mapExcept (specRenderEntity q s tt pt "insert") a with
    | error e => exact ⟨e, by simp [specSplitRender, ha]⟩
    | ok la =>
      obtain ⟨e1, h1⟩ := mapExcept_error_of_mem _ u item hin hfail
      exact ⟨e1, by simp [specSplitRender, ha, h1]⟩
  · cases ha : mapExcept (specRenderEntity q s tt pt "insert") a with
    | error e => exact ⟨e, by simp [specSplitRender, ha]⟩
    | ok la =>
      cases hu : mapExcept (specRenderEntity q s tt pt "update") u with
      | error e => exact ⟨e, by simp [specSplitRender, ha, hu]⟩
      | ok lu =>
        obtain ⟨e1, h1⟩ := mapExcept_error_of_mem _ r item hin hfail
        exact ⟨e1, by simp [specSplitRender, ha, hu, h1]⟩

/-- Witness for C6: a topic template with an unclosed placeholder makes
the single added entity fail to render, and the whole call errors. -/
theorem claim6_render_failure_aborts_witness :
    (hbContains ("\x7b\x7bbad").data || (none : Option String).isSome) = true
    ∧ ((Json.null ∈ [Json.null] ∧ "insert" = "insert")
      ∨ (Json.null ∈ ([] : List Json) ∧ "insert" = "update")
      ∨ (Json.null ∈ ([] : List Json) ∧ "insert" = "delete"))
    ∧ (∃ e, specRenderEntity "q1" 1 "\x7b\x7bbad" none "insert" Json.null = .error e)
    ∧ (∃ e', result_to_payload "q1" 1 [Json.null] [] [] "\x7b\x7bbad" none = .error e') :=
  ⟨rfl, Or.inl ⟨List.mem_singleton.mpr rfl, rfl⟩, ⟨unclosedMsg, rfl⟩,
    claim6_render_failure_aborts "q1" 1 [Json.null] [] [] "\x7b\x7bbad" none rfl
      Json.null "insert" (Or.inl ⟨List.mem_singleton.mpr rfl, rfl⟩) ⟨unclosedMsg, rfl⟩⟩

/-- C10: in split mode a list item that is not a JSON object does not
make result_to_payload fail on account of its shape (template success is
context independent): it still yields exactly one message, and since the
metadata insertion only applies to objects, the keys query_id, sequence
and op are absent from its render context, so the template-less payload
is the item itself encoded without the three metadata keys. -/
theorem claim10_nonobject_items (q : String) (s : Nat) (tt : String) (item : Json)
    (hobj : isObjB item = false) (hmark : hbContains tt.data = true)
    (hwf : isOkE (renderTemplate tt Json.null) = true) :
    (∃ topic, result_to_payload q s [item] [] [] tt none = .ok [(topic, Json.encode item)])
    ∧ Json.get (buildContext q s "insert" item) "query_id" = none
    ∧ Json.get (buildContext q s "insert" item) "sequence" = none
    ∧ Json.get (buildContext q s "insert" item) "op" = none := by
  have hctx : buildContext q s "insert" item = item := by
    cases item <;> simp_all [buildContext, isObjB]
  have hok : isOkE (renderTemplate tt item) = true := by
    rw [renderTemplate] at hwf ⊢
    rw [renderSM_isOk_ctx tt.data .outside item Json.null]
    exact hwf
  refine ⟨?_, ?_, ?_, ?_⟩
  · cases htop : renderTemplate tt item with
    | error e =>
      rw [htop] at hok
      exact absurd hok (by simp [isOkE])
    | ok topic =>
      refine ⟨topic, ?_⟩
      rw [result_split q s [item] [] [] tt none (by simp [hmark])]
      simp [specSplitRender, mapExcept, specRenderEntity, hctx, htop]
  · rw [hctx]; exact get_nonObj item _ hobj
  · rw [hctx]; exact get_nonObj item _ hobj
  · rw [hctx]; exact get_nonObj item _ hobj

/-- Witness for C10: a bare-string item under a dynamic topic template
yields one message whose payload is the encoded item. -/
theorem claim10_nonobject_items_witness :
    isObjB (Json.str "hello") = false
    ∧ hbContains ("t/\x7b\x7bdevice\x7d\x7d").data = true
    ∧ isOkE (renderTemplate "t/\x7b\x7bdevice\x7d\x7d" Json.null) = true
    ∧ ((∃ topic, result_to_payload "q1" 1 [Json.str "hello"] [] []
          "t/\x7b\x7bdevice\x7d\x7d" none =
          .ok [(topic, Json.encode (Json.str "hello"))])
      ∧ Json.get (buildContext "q1" 1 "insert" (Json.str "hello")) "query_id" = none
      ∧ Json.get (buildContext "q1" 1 "insert" (Json.str "hello")) "sequence" = none
      ∧ Json.get (buildContext "q1" 1 "insert" (Json.str "hello")) "op" = none) :=
  ⟨rfl, rfl, rfl,
    claim10_nonobject_items "q1" 1 "t/\x7b\x7bdevice\x7d\x7d" (Json.str "hello")
      rfl rfl rfl⟩

/-- C7 counterexample: under the registry the repository builds
(Handlebars::new() at reaction.rs line 55, strict mode off), rendering a
template that references a key absent from the context succeeds, with
the placeholder replaced by the empty string — it does not fail with a
RenderError, contradicting the claim as stated. -/
theorem claim7_missing_key_cex :
    isOkE (renderTemplate "x\x7b\x7bmissing\x7d\x7dy" (Json.obj [])) = true
    ∧ renderTemplate "x\x7b\x7bmissing\x7d\x7dy" (Json.obj []) = .ok "xy" :=
  ⟨rfl, rfl⟩

/-- C7 amended: rendering a placeholder whose key is absent from the
context succeeds and substitutes the empty string (the default registry
is not strict); a RenderError arises only from invalid template syntax
such as an unclosed placeholder. -/
theorem claim7_missing_key_amended (k : String) (ctx : Json)
    (hk : k.data.all (fun c => !(c = hbOpen || c = hbClose)) = true)
    (habs : Json.get ctx k = none) :
    renderTemplate ("\x7b\x7b" ++ k ++ "\x7d\x7d") ctx = .ok "" := by
  have h1 : ("\x7b\x7b" ++ k ++ "\x7d\x7d").data =
      hbOpen :: hbOpen :: (k.data ++ [hbClose, hbClose]) := by
    have h2 : ("\x7b\x7b" ++ k ++ "\x7d\x7d").data =
        ("\x7b\x7b").data ++ k.data ++ ("\x7d\x7d").data := by
      simp [String.data_append]
    rw [h2]
    have h3 : ("\x7b\x7b").data = [hbOpen, hbOpen] := rfl
    have h4 : ("\x7d\x7d").data = [hbClose, hbClose] := rfl
    rw [h3, h4]
    simp
  rw [renderTemplate, h1]
  have h5 : renderSM ctx .outside (hbOpen :: hbOpen :: (k.data ++ [hbClose, hbClose])) =
      renderSM ctx (.inside []) (k.data ++ [hbClose, hbClose]) := by
    simp [renderSM]
  rw [h5]
  have hno : ∀ c ∈ k.data, c ≠ hbClose := by
    intro c hc
    have hcb := List.all_eq_true.mp hk c hc
    simp at hcb
    exact hcb.2
  rw [renderSM_inside_close ctx k.data [] hno]
  simp only [List.nil_append]
  have h6 : String.mk k.data = k := rfl
  rw [h6]
  simp [renderVar, habs]

/-- Witness for the amended C7: the key missing is absent from the empty
object context and the placeholder renders to the empty string. -/
theorem claim7_missing_key_amended_witness :
    ("missing").data.all (fun c => !(c = hbOpen || c = hbClose)) = true
    ∧ Json.get (Json.obj []) "missing" = none
    ∧ renderTemplate ("\x7b\x7b" ++ "missing" ++ "\x7d\x7d") (Json.obj []) = .ok "" :=
  ⟨rfl, rfl, claim7_missing_key_amended "missing" (Json.obj []) rfl rfl⟩

/-- C5: the inbound mapper returns an error exactly when parsing the
payload bytes failed; on every successfully parsed document it returns
exactly one change event whose snapshot holds exactly the top-level
fields of the document, and a non-object top-level document yields an
empty snapshot together with the resolved identity rather than an
error. -/
theorem claim5_parse_error_iff (parsed : Except String Json)
    (f lbl u : String) (mode : OperationMode) :
    ((∃ e, parsed = .error e) ↔
      (∃ e, payload_to_source_change parsed f lbl u mode = .error e))
    ∧ (∀ j, parsed = .ok j →
        payload_to_source_change parsed f lbl u mode =
          .ok (opWrap mode (Element.Node
            { reference := { source_id := lbl, element_id := resolveEntityId j f u }
              labels := [lbl]
              effective_from := 0 } (topFields j))))
    ∧ (∀ j, parsed = .ok j → isObjB j = false → topFields j = []) := by
  refine ⟨⟨?_, ?_⟩, ?_, ?_⟩
  · rintro ⟨e, he⟩
    subst he
    exact ⟨e, rfl⟩
  · rintro ⟨e, he⟩
    cases parsed with
    | error e2 => exact ⟨e2, rfl⟩
    | ok j => simp [payload_to_source_change] at he
  · intro j hj
    subst hj
    rfl
  · intro j hj hobj
    cases j <;> simp_all [topFields, isObjB]

/-- Witness for C5 at the concrete payload of the insert-mode unit
test. -/
theorem claim5_parse_error_iff_witness :
    payload_to_source_change
        (.ok (Json.obj [("id", Json.str "sensor-1"), ("temp", Json.num 25)]))
        "id" "Sensor" uuidEx OperationMode.Insert =
      .ok (opWrap OperationMode.Insert (Element.Node
        { reference := { source_id := "Sensor"
                         element_id := resolveEntityId
                           (Json.obj [("id", Json.str "sensor-1"), ("temp", Json.num 25)])
                           "id" uuidEx }
          labels := ["Sensor"]
          effective_from := 0 }
        (topFields (Json.obj [("id", Json.str "sensor-1"), ("temp", Json.num 25)])))) :=
  (claim5_parse_error_iff
    (.ok (Json.obj [("id", Json.str "sensor-1"), ("temp", Json.num 25)]))
    "id" "Sensor" uuidEx OperationMode.Insert).2.1 _ rfl

/-- C4 counterexample: the identity resolution step of payload_to_change
(src/main.rs lines 150 to 155) uses as_str, so on a payload whose id
field is the number 42 it does not return the canonical decimal string
form: it falls back to the freshly generated identifier instead,
contradicting the claim as stated for that cited call site. -/
theorem claim4_resolution_cex :
    (payload_to_change (.ok (Json.obj [("id", Json.num 42)])) 0 uuidEx).map
        (fun c => c.node.id) = some uuidEx
    ∧ uuidEx ≠ "42" :=
  ⟨rfl, by decide⟩

/-- C4 amended: the mapper-crate resolver behaves exactly as claimed —
string verbatim, numeric as its decimal string, otherwise the freshly
generated well-formed identifier, and it never fails — while the
standalone reactivator resolver in main.rs takes only string values
verbatim and falls back to the freshly generated identifier for every
other case, numeric values included. -/
theorem claim4_resolution_amended (j : Json) (f u : String)
    (hu : isUuidFormat u = true) :
    (∀ s, Json.get j f = some (.str s) → resolveEntityId j f u = s)
    ∧ (∀ n, Json.get j f = some (.num n) → resolveEntityId j f u = toString n)
    ∧ ((∀ s, Json.get j f ≠ some (.str s)) → (∀ n, Json.get j f ≠ some (.num n)) →
        resolveEntityId j f u = u ∧ isUuidFormat (resolveEntityId j f u) = true)
    ∧ (∀ ts s, Json.get j "id" = some (.str s) →
        (payload_to_change (.ok j) ts u).map (fun c => c.node.id) = some s)
    ∧ (∀ ts, (∀ s, Json.get j "id" ≠ some (.str s)) →
        (payload_to_change (.ok j) ts u).map (fun c => c.node.id) = some u) := by
  refine ⟨?_, ?_, ?_, ?_, ?_⟩
  · intro s hs
    simp [resolveEntityId, hs]
  · intro n hn
    simp [resolveEntityId, hn]
  · intro hns hnn
    cases hg : Json.get j f with
    | none => exact ⟨by simp [resolveEntityId, hg], by simp [resolveEntityId, hg]; exact hu⟩
    | some v =>
      cases v with
      | str s => exact absurd hg (hns s)
      | num n => exact absurd hg (hnn n)
      | null => exact ⟨by simp [resolveEntityId, hg], by simp [resolveEntityId, hg]; exact hu⟩
      | bool b => exact ⟨by simp [resolveEntityId, hg], by simp [resolveEntityId, hg]; exact hu⟩
      | arr xs => exact ⟨by simp [resolveEntityId, hg], by simp [resolveEntityId, hg]; exact hu⟩
      | obj fs => exact ⟨by simp [resolveEntityId, hg], by simp [resolveEntityId, hg]; exact hu⟩
  · intro ts s hs
    simp [payload_to_change, hs]
  · intro ts hns
    cases hg : Json.get j "id" with
    | none => simp [payload_to_change, hg]
    | some v =>
      cases v with
      | str s => exact absurd hg (hns s)
      | num n => simp [payload_to_change, hg]
      | null => simp [payload_to_change, hg]
      | bool b => simp [payload_to_change, hg]
      | arr xs => simp [payload_to_change, hg]
      | obj fs => simp [payload_to_change, hg]

/-- Witness for the amended C4 at a concrete payload and generated
identifier. -/
theorem claim4_resolution_amended_witness :
    isUuidFormat uuidEx = true
    ∧ ((∀ s, Json.get (Json.obj [("k", Json.str "v")]) "k" = some (.str s) →
          resolveEntityId (Json.obj [("k", Json.str "v")]) "k" uuidEx = s)
      ∧ (∀ n, Json.get (Json.obj [("k", Json.str "v")]) "k" = some (.num n) →
          resolveEntityId (Json.obj [("k", Json.str "v")]) "k" uuidEx = toString n)
      ∧ ((∀ s, Json.get (Json.obj [("k", Json.str "v")]) "k" ≠ some (.str s)) →
          (∀ n, Json.get (Json.obj [("k", Json.str "v")]) "k" ≠ some (.num n)) →
          resolveEntityId (Json.obj [("k", Json.str "v")]) "k" uuidEx = uuidEx
          ∧ isUuidFormat (resolveEntityId (Json.obj [("k", Json.str "v")]) "k" uuidEx) = true)
      ∧ (∀ ts s, Json.get (Json.obj [("k", Json.str "v")]) "id" = some (.str s) →
          (payload_to_change (.ok (Json.obj [("k", Json.str "v")])) ts uuidEx).map
            (fun c => c.node.id) = some s)
      ∧ (∀ ts, (∀ s, Json.get (Json.obj [("k", Json.str "v")]) "id" ≠ some (.str s)) →
          (payload_to_change (.ok (Json.obj [("k", Json.str "v")])) ts uuidEx).map
            (fun c => c.node.id) = some uuidEx)) :=
  ⟨by decide, claim4_resolution_amended (Json.obj [("k", Json.str "v")]) "k" uuidEx (by decide)⟩

/-- C9 counterexample: on a payload whose configured identity field holds
the empty string, the mapper takes it verbatim (mapper.rs line 46), so
the produced change event carries an empty entityId, contradicting the
claimed non-emptiness for exactly that case. -/
theorem claim9_nonempty_cex :
    (payload_to_source_change (.ok (Json.obj [("id", Json.str "")]))
        "id" "Sensor" uuidEx OperationMode.Insert).map changeEntityId = .ok "" :=
  rfl

/-- C9 amended: for every accepted payload whose identity field does not
hold the empty string — absent field, non-string non-number value,
numeric value, or non-empty string — the produced entityId is non-empty
(given the generated fallback identifier is well-formed). -/
theorem claim9_nonempty_amended (j : Json) (f lbl u : String) (mode : OperationMode)
    (hu : isUuidFormat u = true) (hne : Json.get j f ≠ some (Json.str "")) :
    ∀ c, payload_to_source_change (.ok j) f lbl u mode = .ok c →
      changeEntityId c ≠ "" := by
  intro c hc
  have hid : changeEntityId c = resolveEntityId j f u := by
    simp only [payload_to_source_change] at hc
    cases mode <;> simp only [opWrap] at hc <;>
      cases hc' : hc.symm <;> simp [changeEntityId]
  rw [hid]
  cases hg : Json.get j f with
  | none =>
    simp only [resolveEntityId, hg]
    exact uuidFormat_ne_empty u hu
  | some v =>
    cases v with
    | str s =>
      have hs : s ≠ "" := by
        intro hemp
        subst hemp
        exact hne hg
      simp only [resolveEntityId, hg]
      exact hs
    | num n =>
      simp only [resolveEntityId, hg]
      exact intToString_ne_empty n
    | null =>
      simp only [resolveEntityId, hg]
      exact uuidFormat_ne_empty u hu
    | bool b =>
      simp only [resolveEntityId, hg]
      exact uuidFormat_ne_empty u hu
    | arr xs =>
      simp only [resolveEntityId, hg]
      exact uuidFormat_ne_empty u hu
    | obj fs =>
      simp only [resolveEntityId, hg]
      exact uuidFormat_ne_empty u hu

/-- Witness for the amended C9 at a concrete non-empty string id. -/
theorem claim9_nonempty_amended_witness :
    isUuidFormat uuidEx = true
    ∧ Json.get (Json.obj [("id", Json.str "abc")]) "id" ≠ some (Json.str "")
    ∧ (∀ c, payload_to_source_change (.ok (Json.obj [("id", Json.str "abc")]))
        "id" "Sensor" uuidEx OperationMode.Insert = .ok c → changeEntityId c ≠ "") := by
  have hne : Json.get (Json.obj [("id", Json.str "abc")]) "id" ≠ some (Json.str "") := by
    intro hc
    rw [show Json.get (Json.obj [("id", Json.str "abc")]) "id" =
      some (Json.str "abc") from rfl] at hc
    injection hc with h2
    injection h2 with h3
    exact absurd h3 (by decide)
  exact ⟨by decide, hne,
    claim9_nonempty_amended (Json.obj [("id", Json.str "abc")]) "id" "Sensor" uuidEx
      OperationMode.Insert (by decide) hne⟩

/-- C8: the mapper itself applies the static per-connection mode — on a
repeated observation of the same entity it still emits the configured
Insert — while the first-seen policy, whose state (the seen_ids set) the
caller in source.rs lines 148 to 154 passes as the fourth argument in
place of the OperationMode the mapper declares, yields Update for the
same second observation: the two blended policies disagree, and the call
site does not even match the declared signature. -/
theorem claim8_policy_divergence :
    payload_to_source_change (.ok (Json.obj [("id", Json.str "s1")]))
        "id" "Sensor" uuidEx OperationMode.Insert =
      .ok (SourceChange.Insert (Element.Node
        { reference := { source_id := "Sensor", element_id := "s1" }
          labels := ["Sensor"]
          effective_from := 0 }
        [("id", Json.str "s1")]))
    ∧ (firstSeenMode (firstSeenMode [] "s1").2 "s1").1 = OperationMode.Update := by
  exact ⟨rfl, rfl⟩
